import Mathlib

/-!
Verification of the conditional / responsive rendering subsystem of the
`atoms` UI library (src/src/on/on.js, src/src/on/on-size.js,
src/src/use/use.js, src/src/comment.js, and the alternate variant of
on.js kept in src/unnamed/part_002).

The JavaScript is shallowly embedded: JS values are the inductive
`JSVal`, the variadic argument normalisation done by each atom factory
becomes a function over `List JSVal`, the closures returned by
`updateLayout` become explicit state-passing step functions, and the
external host collaborators (Builder, dataBinder, the reactive Data
class) are modelled by the contracts the spec assigns to them.
-/

namespace Atoms

/-- JavaScript values, as far as the atom layer distinguishes them.
Function and object values are identified by reference ids, matching
strict equality (`===`) semantics on references. -/
inductive JSVal where
  | undef
  | null
  | bool (b : Bool)
  | num (n : Int)
  | str (s : String)
  | fn (id : Nat)
  | obj (id : Nat)
  deriving DecidableEq, Repr

/-- `typeof v === 'function'`. -/
def JSVal.isFunction : JSVal → Bool
  | .fn _ => true
  | _ => false

/-! ### comment.js -/

/-- The props object handed to the `Comment` constructor: which hooks the
caller supplies, and the `type` label. -/
structure CommentProps where
  type : String
  hasOnCreated : Bool
  hasOnDestroyed : Bool
  deriving DecidableEq, Repr

/-- The descriptor object `Comment` returns. -/
structure CommentDescriptor where
  tag : String
  textContent : String
  hasOnCreated : Bool
  hasOnDestroyed : Bool
  deriving DecidableEq, Repr

/-- comment.js lines 7-11: the returned descriptor carries `tag`,
`textContent` and `onCreated` only; an `onDestroyed` prop supplied by the
caller is not copied into the descriptor. -/
def Comment (props : CommentProps) : CommentDescriptor :=
  { tag := "comment"
    textContent := props.type ++ " placeholder"
    hasOnCreated := props.hasOnCreated
    hasOnDestroyed := false }

/-- on.js lines 204-207: the Comment wrapper for the `on` family passes
`type: 'on'` and `onCreated` only (it defines no destruction hook). -/
def onCommentDescriptor (hasOnCreated : Bool) : CommentDescriptor :=
  Comment { type := "on", hasOnCreated := hasOnCreated, hasOnDestroyed := false }

/-- use.js lines 115-126 (the variant carrying a destruction hook): the
Comment wrapper for the `use` family passes `type: 'use'`, `onCreated`,
and an `onDestroyed` hook that removes the previously rendered element. -/
def useCommentDescriptor (hasOnCreated : Bool) : CommentDescriptor :=
  Comment { type := "use", hasOnCreated := hasOnCreated, hasOnDestroyed := true }

/-- Host unmount of a placeholder (spec section 4.1): the builder runs the
descriptor's destruction hook exactly when the descriptor carries one; the
`use` hook removes the rendered sibling subtree. With no hook on the
descriptor the subsystem performs no teardown action and the rendered
siblings at the anchor are untouched by the placeholder itself. -/
def unmountPlaceholder (d : CommentDescriptor) (renderedSibs : List Nat) : List Nat :=
  if d.hasOnDestroyed then [] else renderedSibs

/-! ### on.js: updateLayout (lines 155-196) -/

/-- The mutable state captured by the closure `updateLayout` returns,
together with the DOM effect it governs: `prevEle` is the closure's
`prevEle` variable, `sibs` the list of rendered nodes currently sitting
immediately after the comment anchor (newest first), and `fresh` a supply
of node identities for newly built fragments. -/
structure UpdState where
  prevEle : Option Nat
  sibs : List Nat
  fresh : Nat
  deriving DecidableEq, Repr

/-- The state of a just-realized updater: no previous element, nothing
rendered after the anchor. -/
def initUpdState : UpdState := ⟨none, [], 0⟩

/-- Builder.build modelled per the host contract (spec section 6 and
section 4.2): a `null` layout builds an empty fragment (nothing to
materialize), any other descriptor builds a fragment with a single fresh
root node. `frag.children[0]` of an empty fragment is undefined. -/
def buildFrag (layout : JSVal) (fresh : Nat) : List Nat :=
  if layout = JSVal.null then [] else [fresh]

/-- One invocation of the closure returned by `updateLayout` (on.js lines
171-195): run the callback with the new value; an `undefined` result is a
no-op; otherwise remove the previous element if one exists, build the
layout and insert the fragment immediately after the anchor, recording the
fragment's first child as the new previous element. The render callback's
fixed `ele`/`parent` arguments are constants of the closure and elided. -/
def updateLayoutStep (callBack : JSVal → JSVal) (st : UpdState) (value : JSVal) : UpdState :=
  let layout := callBack value
  if layout = JSVal.undef then st
  else
    let sibs1 := match st.prevEle with
      | some e => st.sibs.erase e
      | none => st.sibs
    let frag := buildFrag layout st.fresh
    { prevEle := frag.head?, sibs := frag ++ sibs1, fresh := st.fresh + 1 }

/-! ### on.js: data-source resolution (lines 21-34, 215-233) -/

/-- The members of the host component instance consulted by the
resolver. -/
structure ParentCtx where
  data : Option JSVal
  contextData : Option JSVal
  state : Option JSVal
  route : Option JSVal
  deriving DecidableEq, Repr

/-- getParentData (on.js lines 215-233): component data, else context
data, else component state, else null. -/
def getParentData (parent : ParentCtx) : JSVal :=
  match parent.data with
  | some d => d
  | none =>
    match parent.contextData with
    | some d => d
    | none =>
      match parent.state with
      | some s => s
      | none => JSVal.null

/-- The DATA_SOURCES constants (on.js lines 7-12). -/
inductive DataSourceType where
  | parent
  | state
  | route
  deriving DecidableEq, Repr

/-- getDataSource (on.js lines 21-34): dispatch on the source type;
absent members read as undefined. -/
def getDataSource (parent : ParentCtx) : DataSourceType → JSVal
  | .parent => getParentData parent
  | .state => parent.state.getD JSVal.undef
  | .route => parent.route.getD JSVal.undef

/-! ### on.js: value filters (lines 44-62) -/

/-- createEqualityCallback (on.js lines 44-50): run the callback when the
value strictly equals the expected value, otherwise return the fallback
(null by default at every call site that omits it). -/
def createEqualityCallback (callback : JSVal → JSVal) (expectedValue fallback value : JSVal) :
    JSVal :=
  if value = expectedValue then callback value else fallback

/-- createBooleanCallback (on.js lines 59-62): equality against `true`. -/
def createBooleanCallback (callback : JSVal → JSVal) (fallback value : JSVal) : JSVal :=
  createEqualityCallback callback (JSVal.bool true) fallback value

/-! ### on.js: createConditionalAtom (lines 74-105) -/

/-- What the creation hook of a conditional atom computes and hands to
`dataBinder.watch`: the watched source (`settings[0]`), the watched
property, whether the resolved data source was injected, and the final
settings array (read by the callback transformers). -/
structure CondRealization where
  source : JSVal
  prop : JSVal
  injected : Bool
  settings : List JSVal
  deriving DecidableEq, Repr

/-- createConditionalAtom, factory stage (on.js lines 76-84, 85-104): pop
the final argument; when it is not a function return undefined (none),
otherwise return the `on` placeholder descriptor whose creation hook is
`condAtomOnCreated`. -/
def condAtomFactory (args : List JSVal) : Option CommentDescriptor :=
  match args.getLast? with
  | some callback => if callback.isFunction then some (onCommentDescriptor true) else none
  | none => none

/-- createConditionalAtom, creation hook (on.js lines 87-102):
`settings` is the argument list without the popped callback; the resolved
data source is unshifted when `settings.length < (defaultProp ? 1 : 2)`;
the watched property is `defaultProp || settings[1]` and the watched
source `settings[0]`. Out-of-range indexing reads undefined. -/
def condAtomOnCreated (defaultProp : Option String) (resolvedSource : JSVal)
    (args : List JSVal) : CondRealization :=
  let settings := args.dropLast
  let threshold : Nat := if defaultProp.isSome then 1 else 2
  let injected := decide (settings.length < threshold)
  let settings := if injected then resolvedSource :: settings else settings
  { source := settings.getD 0 JSVal.undef
    prop :=
      match defaultProp with
      | some p => JSVal.str p
      | none => settings.getD 1 JSVal.undef
    injected := injected
    settings := settings }

/-- The If callback transformer (on.js lines 299-303): equality against
`settings[2]` with the default null fallback. -/
def ifTransformer (callback : JSVal → JSVal) (settings : List JSVal) (value : JSVal) : JSVal :=
  createEqualityCallback callback (settings.getD 2 JSVal.undef) JSVal.null value

/-! ### on.js: createLoadStyleAtom (lines 115-142) and the Open family -/

/-- createLoadStyleAtom, factory stage (on.js lines 117-124): the
callback is `settings[0]` when that is a function, else `settings[1]`;
when neither is a function the factory returns undefined (none). -/
def loadStyleFactory (args : List JSVal) : Option CommentDescriptor :=
  let callback :=
    if (args.getD 0 JSVal.undef).isFunction then args.getD 0 JSVal.undef
    else args.getD 1 JSVal.undef
  if callback.isFunction then some (onCommentDescriptor true) else none

/-- createLoadStyleAtom, creation hook (on.js lines 128-139): the
resolved source is unshifted when `settings.length < 2` or `settings[0]`
is a function; the watched property is the fixed `prop` of the family. -/
def loadStyleOnCreated (prop : String) (resolvedSource : JSVal) (args : List JSVal) :
    CondRealization :=
  let injected := decide (args.length < 2) || (args.getD 0 JSVal.undef).isFunction
  let settings := if injected then resolvedSource :: args else args
  { source := settings.getD 0 JSVal.undef
    prop := JSVal.str prop
    injected := injected
    settings := settings }

/-- OnOpen, creation hook (on.js lines 387-391): load-style atom over the
parent source with fixed property "open". -/
def OnOpenOnCreated (resolvedSource : JSVal) (args : List JSVal) : CondRealization :=
  loadStyleOnCreated "open" resolvedSource args

/-- OnOpen's transformed callback (on.js line 390 with
createBooleanCallback): render the callback's result exactly when the
watched value is `true`, fallback null otherwise. -/
def OnOpenFilter (callback : JSVal → JSVal) (value : JSVal) : JSVal :=
  createBooleanCallback callback JSVal.null value

/-! ### src/unnamed/part_002: the alternate on.js variant -/

/-- OnOpen from the alternate on.js variant (src/unnamed/part_002 lines
491-534), factory stage: the callback is `settings[0]` when that is NOT a
function, else `settings[1]`; a non-function callback yields undefined. -/
def OnOpenVariantFactory (args : List JSVal) : Option CommentDescriptor :=
  let callBack :=
    if (args.getD 0 JSVal.undef).isFunction then args.getD 1 JSVal.undef
    else args.getD 0 JSVal.undef
  if callBack.isFunction then some (onCommentDescriptor true) else none

/-- OnOpen from the alternate variant (part_002 lines 504-533), creation
hook: the source is unshifted when `settings.length < 2`, and the watched
property is the literal string "loaded". -/
def OnOpenVariantOnCreated (resolvedSource : JSVal) (args : List JSVal) : CondRealization :=
  let injected := decide (args.length < 2)
  let settings := if injected then resolvedSource :: args else args
  { source := settings.getD 0 JSVal.undef
    prop := JSVal.str "loaded"
    injected := injected
    settings := settings }

/-- OnRoute from the alternate variant (part_002 lines 220-245), factory
stage: the placeholder descriptor is returned unconditionally; the
callback check only happens later, inside the creation hook. -/
def OnRouteVariantFactory (_args : List JSVal) : Option CommentDescriptor :=
  some (onCommentDescriptor true)

/-- OnRoute from the alternate variant (part_002 lines 227-243), creation
hook: pop the callback; a non-function aborts (no watch is installed);
otherwise the route object is unshifted when fewer than two settings
remain and `settings[1]` is watched on `settings[0]`. -/
def OnRouteVariantOnCreated (route : JSVal) (args : List JSVal) : Option CondRealization :=
  match args.getLast? with
  | some callBack =>
    if callBack.isFunction then
      let settings := args.dropLast
      let injected := decide (settings.length < 2)
      let settings := if injected then route :: settings else settings
      some { source := settings.getD 0 JSVal.undef
             prop := settings.getD 1 JSVal.undef
             injected := injected
             settings := settings }
    else none
  | none => none

/-! ### on-size.js: breakpoint table and tracker -/

/-- The BREAKPOINTS object (on-size.js lines 7-15), as an association
list in the source's (ascending) key order. -/
def BREAKPOINTS : List (String × Nat) :=
  [("xs", 0), ("sm", 640), ("md", 768), ("lg", 1024), ("xl", 1280), ("2xl", 1536)]

/-- Property access `BREAKPOINTS[name]` for a string key. -/
def lookupBreakpoint (name : String) : Option Nat :=
  BREAKPOINTS.lookup name

/-- The breakpoint names in the table's ascending order. -/
def breakpointNames : List String :=
  BREAKPOINTS.map Prod.fst

/-- The rank of a breakpoint name: its ascending position in the table. -/
def rankOf (name : String) : Nat :=
  breakpointNames.indexOf name

/-- The lower bound of a breakpoint name per the table. -/
def lowerBound (name : String) : Nat :=
  (lookupBreakpoint name).getD 0

/-- getBreakpointName (on-size.js lines 23-31): the cascade of
`width >= BREAKPOINTS[...]` tests from `2xl` down to `sm`, else `xs`. -/
def getBreakpointName (width : Nat) : String :=
  if width ≥ lowerBound "2xl" then "2xl"
  else if width ≥ lowerBound "xl" then "xl"
  else if width ≥ lowerBound "lg" then "lg"
  else if width ≥ lowerBound "md" then "md"
  else if width ≥ lowerBound "sm" then "sm"
  else "xs"

/-- The JS read `BREAKPOINTS[v] || 0`: a string key found in the table
gives its bound; any other string, and any non-string value (such as the
null held by the tracker before initialization), gives 0. -/
def breakpointBound : JSVal → Nat
  | .str s => (lookupBreakpoint s).getD 0
  | _ => 0

/-- matchesBreakpoint (on-size.js lines 40-45):
`(BREAKPOINTS[current] || 0) >= (BREAKPOINTS[target] || 0)`. -/
def matchesBreakpoint (currentBreakpoint targetBreakpoint : JSVal) : Bool :=
  breakpointBound targetBreakpoint ≤ breakpointBound currentBreakpoint

/-- The fields of the global size tracker Data object. -/
structure SizeState where
  size : JSVal
  width : Nat
  deriving DecidableEq, Repr

/-- The global sizeData object as constructed (on-size.js lines 50-53):
`{size: null, width: 0}` before any initialization. -/
def sizeData : SizeState := { size := JSVal.null, width := 0 }

/-- The initial assignment performed by initializeSizeTracker (on-size.js
lines 66-72): both fields are set from the current window width. -/
def sizeTrackerInit (windowWidth : Nat) : SizeState :=
  { size := JSVal.str (getBreakpointName windowWidth), width := windowWidth }

/-- A write to one tracked field, in program order; under the watch
contract (spec sections 6 and 8) each write to a watched property
delivers one notification to its watchers, with no value-diffing skip. -/
inductive FieldWrite where
  | width (w : Nat)
  | size (v : JSVal)
  deriving DecidableEq, Repr

/-- handleResize (on-size.js lines 77-91), instrumented with the list of
field writes it performs: when the new width differs from the stored
width or the new breakpoint differs from the stored size, both fields are
assigned (width first, then size); otherwise nothing is written. -/
def handleResizeWrites (st : SizeState) (newWidth : Nat) : SizeState × List FieldWrite :=
  if newWidth ≠ st.width ∨ JSVal.str (getBreakpointName newWidth) ≠ st.size then
    ({ size := JSVal.str (getBreakpointName newWidth), width := newWidth },
      [FieldWrite.width newWidth, FieldWrite.size (JSVal.str (getBreakpointName newWidth))])
  else (st, [])

/-- The state after one resize step. -/
def handleResize (st : SizeState) (newWidth : Nat) : SizeState :=
  (handleResizeWrites st newWidth).1

/-- How many of the given writes notify watchers of `size`. -/
def sizeNotifications (writes : List FieldWrite) : Nat :=
  (writes.filter fun w => match w with | FieldWrite.size _ => true | _ => false).length

/-- The tracker invariant claimed by the spec: the stored size is the
breakpoint name computed from the stored width. -/
def trackerInvariant (st : SizeState) : Prop :=
  st.size = JSVal.str (getBreakpointName st.width)

/-- `name` is the breakpoint whose lower bound is the greatest one not
exceeding `width`, among the table's names. -/
def isGreatestLowerBoundName (name : String) (width : Nat) : Prop :=
  name ∈ breakpointNames ∧ lowerBound name ≤ width ∧
    ∀ m ∈ breakpointNames, lowerBound m ≤ width → lowerBound m ≤ lowerBound name

/-! ### on-size.js: responsive atoms -/

/-- createResponsiveAtom, factory stage (on-size.js lines 118-138): a
non-function callback yields undefined; otherwise the result is
`On(sizeData, 'size', wrappedCallback)`, whose factory stage accepts the
(function) wrapped callback and returns the `on` placeholder. The global
Data object is referred to by reference. -/
def sizeDataRef : JSVal := JSVal.obj 0

/-- See `sizeDataRef`; this is the factory result. -/
def createResponsiveAtomFactory (callback : JSVal) : Option CommentDescriptor :=
  if callback.isFunction then
    condAtomFactory [sizeDataRef, JSVal.str "size", callback]
  else none

/-- The render callback createResponsiveAtom passes to `On` (on-size.js
lines 126-138): when the current breakpoint matches the target, the user
callback runs (receiving the tracker's current size, which at dispatch
time is the watched value); otherwise null prevents rendering. -/
def responsiveFilter (targetBreakpoint : String) (callback : JSVal → JSVal)
    (currentBreakpoint : JSVal) : JSVal :=
  if matchesBreakpoint currentBreakpoint (JSVal.str targetBreakpoint) then
    callback currentBreakpoint
  else JSVal.null

/-! ### use.js: UseParent (variant of lines 12-26 and 53-71) -/

/-- The observable effects of realizing a UseParent placeholder:
how many times the callback ran, which (source, prop) watch registrations
were installed, and which fragment insertions happened. -/
structure UseRealization where
  invocations : Nat
  watches : List (JSVal × JSVal)
  inserted : List Nat
  deriving DecidableEq, Repr

/-- UseParent's creation hook (use.js lines 60-69) together with its
updateLayout (lines 12-26), instrumented: the final argument is popped;
a non-function aborts with no effect; otherwise the callback runs exactly
once with the host context and its result, unless undefined, is built and
inserted once after the anchor. No dataBinder.watch call occurs anywhere
on this path. Function values carry their semantics through `fenv`. -/
def useParentOnCreated (fenv : Nat → JSVal → JSVal) (args : List JSVal) (parent : JSVal) :
    UseRealization :=
  match args.getLast? with
  | some (JSVal.fn id) =>
    { invocations := 1
      watches := []
      inserted := if fenv id parent = JSVal.undef then [] else [0] }
  | _ => { invocations := 0, watches := [], inserted := [] }

/-- dataBinder dispatch modelled per the host contract (spec section 6):
a change notification on a (source, prop) pair invokes the update
callback of every matching registration, so the number of update-callback
runs caused by a list of changes is the number of matches. -/
def dispatchCount (watches : List (JSVal × JSVal)) (changes : List (JSVal × JSVal)) : Nat :=
  changes.foldl (fun acc c => acc + (watches.filter (fun w => w == c)).length) 0

/-! ## Theorems -/

/-- One update step preserves the shape invariant tying the closure's
`prevEle` to the rendered siblings at the anchor: the siblings are
exactly the tracked previous element, if any. -/
theorem updater_inv_step (callBack : JSVal → JSVal) (st : UpdState)
    (h : st.sibs = st.prevEle.toList) (value : JSVal) :
    (updateLayoutStep callBack st value).sibs
      = (updateLayoutStep callBack st value).prevEle.toList := by
  unfold updateLayoutStep buildFrag
  rcases hp : st.prevEle with _ | e <;>
    by_cases hu : callBack value = JSVal.undef <;>
    by_cases hn : callBack value = JSVal.null <;>
    simp_all

/-- From realization onward, the rendered siblings at the anchor are
exactly the tracked previous element. -/
theorem updater_inv (callBack : JSVal → JSVal) (values : List JSVal) :
    (values.foldl (updateLayoutStep callBack) initUpdState).sibs
      = (values.foldl (updateLayoutStep callBack) initUpdState).prevEle.toList := by
  have h : ∀ st : UpdState, st.sibs = st.prevEle.toList →
      (values.foldl (updateLayoutStep callBack) st).sibs
        = (values.foldl (updateLayoutStep callBack) st).prevEle.toList := by
    induction values with
    | nil => intro st h; simpa using h
    | cons v vs ih => intro st h; exact ih _ (updater_inv_step callBack st h v)
  exact h initUpdState rfl

/-- C1: when the render callback returns null while a rendered sibling
from a previous update exists, the update step removes that sibling and
inserts nothing, leaving zero rendered siblings at the anchor and no
tracked previous element. -/
theorem updateLayout_null_clears (callBack : JSVal → JSVal) (st : UpdState) (e : Nat)
    (hprev : st.prevEle = some e) (hsibs : st.sibs = [e]) (value : JSVal)
    (hcb : callBack value = JSVal.null) :
    (updateLayoutStep callBack st value).sibs = [] ∧
    (updateLayoutStep callBack st value).prevEle = none := by
  unfold updateLayoutStep buildFrag
  simp [hcb, hprev, hsibs]

theorem updateLayout_null_clears_witness :
    (((⟨some 0, [0], 1⟩ : UpdState).prevEle = some 0) ∧
      ((⟨some 0, [0], 1⟩ : UpdState).sibs = [0]) ∧
      ((fun _ => JSVal.null) JSVal.null = JSVal.null)) ∧
    ((updateLayoutStep (fun _ => JSVal.null) ⟨some 0, [0], 1⟩ JSVal.null).sibs = [] ∧
      (updateLayoutStep (fun _ => JSVal.null) ⟨some 0, [0], 1⟩ JSVal.null).prevEle = none) :=
  ⟨⟨rfl, rfl, rfl⟩,
    updateLayout_null_clears (fun _ => JSVal.null) ⟨some 0, [0], 1⟩ 0 rfl rfl JSVal.null rfl⟩

/-- C2: calling If with the data source omitted, as If(propertyName,
expectedValue, callback), does NOT synthesize the data source: the
injection threshold of createConditionalAtom ignores the extra
expectedValue argument, so the watch is installed on the property-name
string as source with the expected value as watched property, and the
equality filter compares against settings[2], which is undefined — so
writing the expected value renders null rather than the callback's
layout. This contradicts the claim and the overload documented on If. -/
theorem If_omitted_source_not_injected :
    condAtomFactory [JSVal.str "open", JSVal.bool true, JSVal.fn 0]
      = some (onCommentDescriptor true) ∧
    condAtomOnCreated none
        (getDataSource
          { data := some (JSVal.obj 7), contextData := none, state := none, route := none }
          DataSourceType.parent)
        [JSVal.str "open", JSVal.bool true, JSVal.fn 0]
      = { source := JSVal.str "open", prop := JSVal.bool true, injected := false,
          settings := [JSVal.str "open", JSVal.bool true] } ∧
    ifTransformer (fun _ => JSVal.obj 9)
        (condAtomOnCreated none (JSVal.obj 7)
          [JSVal.str "open", JSVal.bool true, JSVal.fn 0]).settings
        (JSVal.bool true)
      = JSVal.null := by
  refine ⟨rfl, by decide, by decide⟩

/-- C3: OnOpen as exported by on.js watches the fixed property "open" on
the auto-injected source and renders the callback's result exactly when
the watched value is true (null otherwise); but the alternate variant of
OnOpen in part_002 watches the literal property "loaded" instead, and its
inverted callback selection even rejects the plain OnOpen(callback) call
shape. -/
theorem OnOpen_watched_property :
    (OnOpenOnCreated (JSVal.obj 3) [JSVal.fn 0]).prop = JSVal.str "open" ∧
    (OnOpenOnCreated (JSVal.obj 3) [JSVal.fn 0]).injected = true ∧
    (OnOpenOnCreated (JSVal.obj 3) [JSVal.fn 0]).source = JSVal.obj 3 ∧
    (∀ (callback : JSVal → JSVal) (value : JSVal),
      OnOpenFilter callback value
        = if value = JSVal.bool true then callback value else JSVal.null) ∧
    (OnOpenVariantOnCreated (JSVal.obj 3) [JSVal.fn 0, JSVal.fn 1]).prop
      = JSVal.str "loaded" ∧
    OnOpenVariantFactory [JSVal.fn 0] = none := by
  refine ⟨by decide, by decide, by decide, fun callback value => rfl, by decide, by decide⟩

/-- C4: no destruction hook ever reaches the host builder: the base
Comment constructor (comment.js) drops the onDestroyed prop that the
use-family wrapper supplies, and the on-family wrapper never defines one,
so unmounting a placeholder runs no hook of this subsystem and the
rendered siblings at the anchor are not removed as part of the
placeholder's own destruction. -/
theorem placeholder_teardown_releases_nothing :
    (Comment { type := "use", hasOnCreated := true, hasOnDestroyed := true }).hasOnDestroyed
      = false ∧
    (onCommentDescriptor true).hasOnDestroyed = false ∧
    (useCommentDescriptor true).hasOnDestroyed = false ∧
    unmountPlaceholder (onCommentDescriptor true) [5] = [5] ∧
    unmountPlaceholder (useCommentDescriptor true) [5] = [5] := by
  refine ⟨rfl, rfl, rfl, rfl, rfl⟩

/-- C5 counterexample: two conditional atom factories called with a final
positional argument that is not a function do NOT return undefined: the
load-style factory accepts a trailing non-function (the notLoaded
fallback) after a function callback, and the part_002 OnRoute variant
returns the placeholder descriptor before checking the callback at all. -/
theorem nonfunction_final_arg_still_mounts :
    loadStyleFactory [JSVal.fn 0, JSVal.num 42] = some (onCommentDescriptor true) ∧
    OnRouteVariantFactory [JSVal.num 42] = some (onCommentDescriptor true) := by
  refine ⟨rfl, rfl⟩

/-- C5 amended: the generic createConditionalAtom factories and the
responsive factories return undefined when the final argument is not a
function, and the load-style factories return undefined when neither of
the first two arguments is a function; but a load-style call whose final
argument is a non-function after a function callback mounts normally (the
trailing argument is the notLoaded fallback), and the part_002 OnRoute
variant returns a placeholder descriptor for any arguments, only
suppressing the watch at realization. No path raises an exception. -/
theorem invalid_callback_policy (p : JSVal) (n : Int) :
    condAtomFactory [JSVal.num n] = none ∧
    condAtomFactory [p, JSVal.num n] = none ∧
    condAtomFactory [p, p, JSVal.num n] = none ∧
    loadStyleFactory [JSVal.num n] = none ∧
    createResponsiveAtomFactory (JSVal.num n) = none ∧
    loadStyleFactory [JSVal.fn 0, JSVal.num n] = some (onCommentDescriptor true) ∧
    OnRouteVariantFactory [JSVal.num n] = some (onCommentDescriptor true) ∧
    OnRouteVariantOnCreated (JSVal.obj 2) [JSVal.num n] = none := by
  refine ⟨rfl, rfl, rfl, rfl, rfl, rfl, rfl, rfl⟩

/-- The breakpoint table's key list, spelled out. -/
theorem breakpointNames_eq :
    breakpointNames = ["xs", "sm", "md", "lg", "xl", "2xl"] := by decide

/-- A string absent from the table's keys looks up to nothing. -/
theorem lookupBreakpoint_eq_none (s : String) (h : s ∉ breakpointNames) :
    lookupBreakpoint s = none := by
  rw [breakpointNames_eq] at h
  simp only [List.mem_cons, List.not_mem_nil, or_false, not_or] at h
  obtain ⟨h1, h2, h3, h4, h5, h6⟩ := h
  simp [lookupBreakpoint, BREAKPOINTS, List.lookup,
    beq_eq_false_iff_ne.mpr h1, beq_eq_false_iff_ne.mpr h2, beq_eq_false_iff_ne.mpr h3,
    beq_eq_false_iff_ne.mpr h4, beq_eq_false_iff_ne.mpr h5, beq_eq_false_iff_ne.mpr h6]

/-- C6: for breakpoint names held by the tracker, the at-least filter
compares exactly the table ranks — the atom renders precisely when the
current breakpoint's ascending position reaches the target's — and in
particular OnMd's filter passes the callback through at the breakpoints
of widths 768, 1024 and 1536 and yields null at the breakpoint of
width 767. -/
theorem atLeast_renders_iff_rank (current target : String)
    (hc : current ∈ breakpointNames) (ht : target ∈ breakpointNames)
    (callback : JSVal → JSVal) :
    (matchesBreakpoint (JSVal.str current) (JSVal.str target)
      = decide (rankOf target ≤ rankOf current)) ∧
    responsiveFilter "md" callback (JSVal.str (getBreakpointName 768))
      = callback (JSVal.str "md") ∧
    responsiveFilter "md" callback (JSVal.str (getBreakpointName 1024))
      = callback (JSVal.str "lg") ∧
    responsiveFilter "md" callback (JSVal.str (getBreakpointName 1536))
      = callback (JSVal.str "2xl") ∧
    responsiveFilter "md" callback (JSVal.str (getBreakpointName 767)) = JSVal.null := by
  refine ⟨?_, ?_, ?_, ?_, ?_⟩
  · rw [breakpointNames_eq] at hc ht
    fin_cases hc <;> fin_cases ht <;> decide
  · rw [show getBreakpointName 768 = "md" from by decide]
    simp [responsiveFilter, show matchesBreakpoint (JSVal.str "md") (JSVal.str "md") = true
      from by decide]
  · rw [show getBreakpointName 1024 = "lg" from by decide]
    simp [responsiveFilter, show matchesBreakpoint (JSVal.str "lg") (JSVal.str "md") = true
      from by decide]
  · rw [show getBreakpointName 1536 = "2xl" from by decide]
    simp [responsiveFilter, show matchesBreakpoint (JSVal.str "2xl") (JSVal.str "md") = true
      from by decide]
  · rw [show getBreakpointName 767 = "sm" from by decide]
    simp [responsiveFilter, show matchesBreakpoint (JSVal.str "sm") (JSVal.str "md") = false
      from by decide]

theorem atLeast_renders_iff_rank_witness :
    ("md" ∈ breakpointNames ∧ "sm" ∈ breakpointNames) ∧
    ((matchesBreakpoint (JSVal.str "md") (JSVal.str "sm")
        = decide (rankOf "sm" ≤ rankOf "md")) ∧
      responsiveFilter "md" (fun v => v) (JSVal.str (getBreakpointName 768))
        = JSVal.str "md" ∧
      responsiveFilter "md" (fun v => v) (JSVal.str (getBreakpointName 1024))
        = JSVal.str "lg" ∧
      responsiveFilter "md" (fun v => v) (JSVal.str (getBreakpointName 1536))
        = JSVal.str "2xl" ∧
      responsiveFilter "md" (fun v => v) (JSVal.str (getBreakpointName 767)) = JSVal.null) :=
  ⟨⟨by decide, by decide⟩,
    atLeast_renders_iff_rank "md" "sm" (by decide) (by decide) (fun v => v)⟩

/-- The table's lower bounds, evaluated. -/
theorem lowerBound_xs : lowerBound "xs" = 0 := by decide

/-- The table's lower bounds, evaluated. -/
theorem lowerBound_sm : lowerBound "sm" = 640 := by decide

/-- The table's lower bounds, evaluated. -/
theorem lowerBound_md : lowerBound "md" = 768 := by decide

/-- The table's lower bounds, evaluated. -/
theorem lowerBound_lg : lowerBound "lg" = 1024 := by decide

/-- The table's lower bounds, evaluated. -/
theorem lowerBound_xl : lowerBound "xl" = 1280 := by decide

/-- The table's lower bounds, evaluated. -/
theorem lowerBound_2xl : lowerBound "2xl" = 1536 := by decide

/-- getBreakpointName picks the table name whose lower bound is the
greatest one not exceeding the width. -/
theorem getBreakpointName_glb (w : Nat) :
    isGreatestLowerBoundName (getBreakpointName w) w := by
  unfold isGreatestLowerBoundName getBreakpointName
  split_ifs with h1 h2 h3 h4 h5 <;>
    simp only [lowerBound_xs, lowerBound_sm, lowerBound_md, lowerBound_lg, lowerBound_xl,
      lowerBound_2xl] at * <;>
    refine ⟨by decide, by omega, ?_⟩ <;>
    intro m hm hmw <;>
    rw [breakpointNames_eq] at hm <;>
    fin_cases hm <;>
    simp only [lowerBound_xs, lowerBound_sm, lowerBound_md, lowerBound_lg, lowerBound_xl,
      lowerBound_2xl] at hmw ⊢ <;>
    omega

/-- A resize step preserves the tracker invariant. -/
theorem handleResize_invariant (st : SizeState) (h : trackerInvariant st) (w : Nat) :
    trackerInvariant (handleResize st w) := by
  unfold handleResize handleResizeWrites trackerInvariant at *
  split <;> simp_all

/-- Any sequence of resize steps preserves the tracker invariant. -/
theorem tracker_invariant_foldl (st : SizeState) (h : trackerInvariant st) (ws : List Nat) :
    trackerInvariant (ws.foldl handleResize st) := by
  induction ws generalizing st with
  | nil => exact h
  | cons w ws ih => exact ih _ (handleResize_invariant st h w)

/-- C7: after initialization and after every resize step, the tracker's
size is the breakpoint name computed from its width, that name is the one
whose lower bound is the greatest not exceeding the width, and the
boundary widths map exactly as the table prescribes. -/
theorem tracker_size_is_glb_name (w0 : Nat) (ws : List Nat) :
    ((ws.foldl handleResize (sizeTrackerInit w0)).size
      = JSVal.str (getBreakpointName (ws.foldl handleResize (sizeTrackerInit w0)).width)) ∧
    isGreatestLowerBoundName
      (getBreakpointName (ws.foldl handleResize (sizeTrackerInit w0)).width)
      (ws.foldl handleResize (sizeTrackerInit w0)).width ∧
    getBreakpointName 639 = "xs" ∧
    getBreakpointName 640 = "sm" ∧
    getBreakpointName 1535 = "xl" ∧
    getBreakpointName 1536 = "2xl" :=
  ⟨tracker_invariant_foldl (sizeTrackerInit w0) rfl ws,
    getBreakpointName_glb _, by decide, by decide, by decide, by decide⟩

/-- C8 counterexample: at the tracker state of width 800 (breakpoint md),
a resize event to width 900 leaves the breakpoint unchanged, yet the
handler's guard fires on the width change and rewrites the size field
with its unchanged value — one notification to watchers of size, where
the claim requires zero. -/
theorem resize_same_breakpoint_still_notifies :
    (JSVal.str (getBreakpointName 900) = (sizeTrackerInit 800).size) ∧
    (sizeTrackerInit 800).size = JSVal.str "md" ∧
    sizeNotifications (handleResizeWrites (sizeTrackerInit 800) 900).2 = 1 := by
  refine ⟨by decide, by decide, by decide⟩

/-- C8 amended: the fields are written only when the width or the
breakpoint changed — a resize that leaves the width (and hence, under the
invariant, the breakpoint) unchanged performs no write at all — but any
width change rewrites both fields, so a resize that changes the width
while keeping the breakpoint still emits one notification to watchers of
size. -/
theorem resize_writes_only_on_change (st : SizeState) (w : Nat)
    (h : trackerInvariant st) :
    (w = st.width → (handleResizeWrites st w).2 = []) ∧
    ((handleResizeWrites st w).2 ≠ [] →
      (w ≠ st.width ∨ JSVal.str (getBreakpointName w) ≠ st.size)) ∧
    (w ≠ st.width → sizeNotifications (handleResizeWrites st w).2 = 1) := by
  unfold trackerInvariant at h
  refine ⟨?_, ?_, ?_⟩
  · intro hw
    have hno : ¬(w ≠ st.width ∨ JSVal.str (getBreakpointName w) ≠ st.size) := by
      push_neg
      refine ⟨hw, ?_⟩
      rw [hw]
      exact h.symm
    unfold handleResizeWrites
    rw [if_neg hno]
  · by_cases hcond : w ≠ st.width ∨ JSVal.str (getBreakpointName w) ≠ st.size
    · intro _
      exact hcond
    · unfold handleResizeWrites
      rw [if_neg hcond]
      intro hne
      exact absurd rfl hne
  · intro hw
    unfold handleResizeWrites
    rw [if_pos (Or.inl hw)]
    rfl

theorem resize_writes_only_on_change_witness :
    trackerInvariant (sizeTrackerInit 800) ∧
    ((800 = (sizeTrackerInit 800).width →
        (handleResizeWrites (sizeTrackerInit 800) 800).2 = []) ∧
      ((handleResizeWrites (sizeTrackerInit 800) 800).2 ≠ [] →
        (800 ≠ (sizeTrackerInit 800).width ∨
          JSVal.str (getBreakpointName 800) ≠ (sizeTrackerInit 800).size)) ∧
      (800 ≠ (sizeTrackerInit 800).width →
        sizeNotifications (handleResizeWrites (sizeTrackerInit 800) 800).2 = 1)) :=
  ⟨rfl, resize_writes_only_on_change (sizeTrackerInit 800) 800 rfl⟩

/-- Dispatching any list of change notifications over an empty watch list
invokes nothing. -/
theorem dispatchCount_nil (changes : List (JSVal × JSVal)) :
    dispatchCount [] changes = 0 := by
  unfold dispatchCount
  have h : ∀ a : Nat, changes.foldl
      (fun acc c => acc + (([] : List (JSVal × JSVal)).filter (fun w => w == c)).length) a
        = a := by
    induction changes with
    | nil => intro a; rfl
    | cons c cs ih =>
      intro a
      simp only [List.foldl_cons, List.filter_nil, List.length_nil, Nat.add_zero]
      exact ih a
  exact h 0

/-- C9: realizing a UseParent placeholder whose final argument is a
function invokes the callback exactly once with the host context,
installs no watch registration — so no sequence of later data changes
dispatches to it — and performs exactly one fragment insertion unless the
callback returned undefined. -/
theorem UseParent_renders_once (fenv : Nat → JSVal → JSVal) (lead : List JSVal)
    (id : Nat) (parent : JSVal) (changes : List (JSVal × JSVal)) :
    (useParentOnCreated fenv (lead ++ [JSVal.fn id]) parent).invocations = 1 ∧
    (useParentOnCreated fenv (lead ++ [JSVal.fn id]) parent).watches = [] ∧
    dispatchCount (useParentOnCreated fenv (lead ++ [JSVal.fn id]) parent).watches changes
      = 0 ∧
    (useParentOnCreated fenv (lead ++ [JSVal.fn id]) parent).inserted
      = (if fenv id parent = JSVal.undef then [] else [0]) := by
  have hl : (lead ++ [JSVal.fn id]).getLast? = some (JSVal.fn id) := by
    rw [List.getLast?_concat]
  unfold useParentOnCreated
  rw [hl]
  exact ⟨rfl, rfl, dispatchCount_nil changes, rfl⟩

/-- C10: matchesBreakpoint is total: any value that is not a table name —
including the null size held by the uninitialized tracker — is treated as
lower bound 0, so the at-least filter for xs passes the callback through
while the filters for sm and above yield null; no path can throw. -/
theorem matchesBreakpoint_total_default (v : JSVal)
    (hv : ∀ s, v = JSVal.str s → s ∉ breakpointNames) (callback : JSVal → JSVal) :
    breakpointBound v = 0 ∧
    sizeData.size = JSVal.null ∧
    breakpointBound sizeData.size = 0 ∧
    responsiveFilter "xs" callback v = callback v ∧
    responsiveFilter "sm" callback v = JSVal.null ∧
    responsiveFilter "md" callback v = JSVal.null ∧
    responsiveFilter "lg" callback v = JSVal.null ∧
    responsiveFilter "xl" callback v = JSVal.null ∧
    responsiveFilter "2xl" callback v = JSVal.null := by
  have hb : breakpointBound v = 0 := by
    cases v
    case str s => simp [breakpointBound, lookupBreakpoint_eq_none s (hv s rfl)]
    all_goals rfl
  have bxs : breakpointBound (JSVal.str "xs") = 0 := by decide
  have bsm : breakpointBound (JSVal.str "sm") = 640 := by decide
  have bmd : breakpointBound (JSVal.str "md") = 768 := by decide
  have blg : breakpointBound (JSVal.str "lg") = 1024 := by decide
  have bxl : breakpointBound (JSVal.str "xl") = 1280 := by decide
  have b2xl : breakpointBound (JSVal.str "2xl") = 1536 := by decide
  refine ⟨hb, rfl, rfl, ?_, ?_, ?_, ?_, ?_, ?_⟩ <;>
    simp [responsiveFilter, matchesBreakpoint, hb, bxs, bsm, bmd, blg, bxl, b2xl]

theorem matchesBreakpoint_total_default_witness :
    (∀ s, JSVal.null = JSVal.str s → s ∉ breakpointNames) ∧
    (breakpointBound JSVal.null = 0 ∧
      sizeData.size = JSVal.null ∧
      breakpointBound sizeData.size = 0 ∧
      responsiveFilter "xs" (fun v => v) JSVal.null = JSVal.null ∧
      responsiveFilter "sm" (fun v => v) JSVal.null = JSVal.null ∧
      responsiveFilter "md" (fun v => v) JSVal.null = JSVal.null ∧
      responsiveFilter "lg" (fun v => v) JSVal.null = JSVal.null ∧
      responsiveFilter "xl" (fun v => v) JSVal.null = JSVal.null ∧
      responsiveFilter "2xl" (fun v => v) JSVal.null = JSVal.null) :=
  ⟨fun _ h => JSVal.noConfusion h,
    matchesBreakpoint_total_default JSVal.null (fun _ h => JSVal.noConfusion h) (fun v => v)⟩

end Atoms
